import Mathlib

/-!
Verification of the cache-coherence core of `src/server.go` (soulforged-go).

The source is a single Go file exposing `GET /api/map`. It keeps a
process-wide cache of `MapLocation` records guarded by one `sync.Mutex`
(`cacheMutex`). A request handler (`getMapDataHandler`) serves the cache,
cold-filling it from the storage backend when empty; a background loop
(`updateCacheAsync`) refreshes it on a fixed tick. We embed the data
model, the handler, one tick of the refresh loop, the `context` values
each backend call receives, the resource-release order of a tick, and
`main`'s startup behaviour, all translated from the source.

Modelling conventions:
* Go `float64` coordinates are embedded as `ℚ`; the record values in the
  claims (1.5, 2.5) are exactly representable, and the decimal renderer
  below matches Go's `encoding/json` output on `float64` values whose
  exact value has a short terminating decimal expansion.
* The storage backend (`collection.Find` + `cursor.All`) is an external
  collaborator: one fetch attempt either fails at the `Find` stage, fails
  at the decode (`cursor.All`) stage, or yields a complete record list.
  JSON encoding of the response either succeeds (deterministically) or
  fails; Go's `json.Encoder.Encode` marshals the whole value before its
  single `Write`, so a serialization failure writes no bytes.
*Aligning with Go, a slice that was never populated is `nil` and
  marshals as `null`; every empty record list in this program is such a
  slice, so the encoder below renders the empty list as `null`.
-/

/-- Coordinates embeds the `XY` document: fields `x` then `y`, in struct
declaration order (which fixes the JSON key order). -/
structure Coordinates where
  x : ℚ
  y : ℚ
  deriving DecidableEq, Repr

/-- MapLocation mirrors the Go struct: `ID` (json tag `id`), `Location`
(json tag `location`), `XY` (json tag `xy`), in declaration order. -/
structure MapLocation where
  ID : String
  Location : String
  XY : Coordinates
  deriving DecidableEq, Repr

/-- Digits of the fractional part of `rem / d` (with `rem < d`),
produced by repeated multiplication by 10, stopping when the remainder
vanishes; `fuel` bounds the number of digits. -/
def fracDigitsAux (d : ℕ) : ℕ → ℕ → String
  | 0, _ => ""
  | _ + 1, 0 => ""
  | fuel + 1, rem =>
    let rem10 := rem * 10
    toString (rem10 / d) ++ fracDigitsAux d fuel (rem10 % d)

/-- Decimal rendering of a rational, matching Go's `encoding/json`
output for a `float64` whose exact value has a terminating decimal
expansion: no trailing `.0` on integers, minimal digits otherwise. -/
def encodeRat (q : ℚ) : String :=
  let sign := if q < 0 then "-" else ""
  let n := q.num.natAbs
  let d := q.den
  if n % d = 0 then sign ++ toString (n / d)
  else sign ++ toString (n / d) ++ "." ++ fracDigitsAux d 20 (n % d)

/-- Hex digit for `\u00XX` escapes. -/
def hexDigit (n : ℕ) : String :=
  if n < 10 then toString n
  else if n = 10 then "a" else if n = 11 then "b" else if n = 12 then "c"
  else if n = 13 then "d" else if n = 14 then "e" else "f"

/-- Per-character escaping of Go's `encoding/json` string encoder with
its default HTML escaping (`<`, `>`, `&` become `<` etc.). -/
def escapeChar (c : Char) : String :=
  if c = '"' then "\\\""
  else if c = '\\' then "\\\\"
  else if c = '<' then "\\u003c"
  else if c = '>' then "\\u003e"
  else if c = '&' then "\\u0026"
  else if c = '\n' then "\\n"
  else if c = '\r' then "\\r"
  else if c = '\t' then "\\t"
  else if c.toNat < 0x20 then "\\u00" ++ hexDigit (c.toNat / 16) ++ hexDigit (c.toNat % 16)
  else String.singleton c

/-- Go JSON string literal: quoted, characters escaped. -/
def encodeGoString (s : String) : String :=
  "\"" ++ String.join (s.data.map escapeChar) ++ "\""

/-- JSON object for `Coordinates` per the struct tags: keys `x`, `y` in
declaration order. -/
def encodeCoordinates (c : Coordinates) : String :=
  "\x7b\"x\":" ++ encodeRat c.x ++ ",\"y\":" ++ encodeRat c.y ++ "\x7d"

/-- JSON object for `MapLocation` per the struct tags: keys `id`,
`location`, `xy` in declaration order. -/
def encodeMapLocation (m : MapLocation) : String :=
  "\x7b\"id\":" ++ encodeGoString m.ID ++ ",\"location\":" ++ encodeGoString m.Location
    ++ ",\"xy\":" ++ encodeCoordinates m.XY ++ "\x7d"

/-- JSON rendering of the cached slice. A never-populated (`nil`) Go
slice marshals as `null`; every empty slice reaching the encoder in this
program is `nil`, so the empty list renders as `null`. -/
def encodeMapLocations : List MapLocation → String
  | [] => "null"
  | ms => "[" ++ String.intercalate "," (ms.map encodeMapLocation) ++ "]"

/-- Outcome of one fetch attempt against the storage backend:
`collection.Find` fails, `cursor.All` (decode) fails, or a complete
record list is produced. -/
inductive FetchOutcome where
  | findError
  | decodeError
  | success (records : List MapLocation)
  deriving DecidableEq, Repr

/-- A fetch attempt that failed at either stage. -/
def FetchOutcome.isFailure : FetchOutcome → Bool
  | .findError => true
  | .decodeError => true
  | .success _ => false

/-- The package-level mutable state of `server.go`: the cache struct and
the package-level `data` slice both paths decode into. -/
structure ServerState where
  cacheData : List MapLocation
  globalData : List MapLocation
  deriving DecidableEq, Repr

/-- The process-start state: both slices are `nil` (empty). -/
def initialState : ServerState := ⟨[], []⟩

/-- Model of `net/http`'s response writing as the handler uses it: the
status line is committed by the first body write (an explicit
`WriteHeader`, or implicitly `200` on the first `Write`); later
`WriteHeader` calls are no-ops. -/
structure ResponseWriter where
  contentType : String
  status : Option ℕ
  body : String
  deriving DecidableEq, Repr

/-- A fresh writer, before the handler touches it. -/
def ResponseWriter.empty : ResponseWriter := ⟨"", none, ""⟩

/-- `w.Header().Set("Content-Type", ct)`: effective while the status
line is not yet committed. -/
def ResponseWriter.setContentType (w : ResponseWriter) (ct : String) : ResponseWriter :=
  if w.status = none then { w with contentType := ct } else w

/-- `w.WriteHeader(code)`: commits the status if not yet committed. -/
def ResponseWriter.writeHeader (w : ResponseWriter) (code : ℕ) : ResponseWriter :=
  if w.status = none then { w with status := some code } else w

/-- `w.Write(bytes)`: implicitly commits status 200 on first write, then
appends to the body. -/
def ResponseWriter.write (w : ResponseWriter) (s : String) : ResponseWriter :=
  let w := if w.status = none then { w with status := some 200 } else w
  { w with body := w.body ++ s }

/-- `http.Error(w, msg, code)`: sets a plain-text content type, writes
the header, then writes the message followed by a newline. -/
def httpError (w : ResponseWriter) (msg : String) (code : ℕ) : ResponseWriter :=
  ((w.setContentType "text/plain; charset=utf-8").writeHeader code).write (msg ++ "\n")

/-- Result of one `getMapDataHandler` run: the package state after the
call, the response written, and whether the backend was fetched. -/
structure HandlerResult where
  state : ServerState
  w : ResponseWriter
  fetched : Bool
  deriving DecidableEq, Repr

/-- One run of `getMapDataHandler` (src/server.go:75-108) under the
mutex. `fetch` is the outcome the backend yields if called; `encodeOk`
is whether `json.Encoder.Encode` serializes successfully. The handler
sets the JSON content type, cold-fills on an empty cache (answering 500
and returning on a `Find` or decode failure, without touching the
cache), then encodes `cache.data`; an encode failure answers 500 via
`http.Error`. -/
def getMapDataHandler (st : ServerState) (fetch : FetchOutcome) (encodeOk : Bool) :
    HandlerResult :=
  let w := ResponseWriter.empty.setContentType "application/json"
  let encodeStep (st : ServerState) (w : ResponseWriter) (fetched : Bool) : HandlerResult :=
    if encodeOk then ⟨st, w.write (encodeMapLocations st.cacheData ++ "\n"), fetched⟩
    else ⟨st, httpError w "Failed to encode map data as JSON" 500, fetched⟩
  if st.cacheData.length = 0 then
    match fetch with
    | .findError => ⟨st, httpError w "Failed to fetch map data from MongoDB" 500, true⟩
    | .decodeError => ⟨st, httpError w "Failed to decode map data" 500, true⟩
    | .success recs => encodeStep ⟨recs, recs⟩ w true
  else
    encodeStep st w false

/-- One iteration of the `updateCacheAsync` loop body
(src/server.go:116-139) under the mutex: on a `Find` or decode failure
the state is left untouched and the loop continues; on success the
fetched records are stored in `data` and `cache.data`. -/
def updateCacheTick (st : ServerState) (fetch : FetchOutcome) : ServerState :=
  match fetch with
  | .findError => st
  | .decodeError => st
  | .success recs => ⟨recs, recs⟩

/-- A Go `context.Context` value as constructed in the source: the
background context, an incoming request's context (`r.Context()`), or a
`context.WithTimeout` derivation (duration in time units). -/
inductive GoContext where
  | background
  | requestCtx
  | withTimeout (parent : GoContext) (d : ℕ)
  deriving DecidableEq, Repr

/-- The timeout bound a context carries, if any (a fresh
`WithTimeout` layer; `background` and a raw request context carry
none). -/
def GoContext.timeoutBound : GoContext → Option ℕ
  | .withTimeout _ d => some d
  | _ => none

/-- Context passed to `collection.Find` in `getMapDataHandler`
(src/server.go:83,86): a fresh 10-unit timeout over the request
context. -/
def handlerFindCtx : GoContext := .withTimeout .requestCtx 10

/-- Context passed to `cursor.All` (the decode stage) in
`getMapDataHandler` (src/server.go:93): `context.Background()`. -/
def handlerDecodeCtx : GoContext := .background

/-- Context passed to `collection.Find` in `updateCacheAsync`
(src/server.go:119,122): a fresh 10-unit timeout over the background
context. -/
def tickFindCtx : GoContext := .withTimeout .background 10

/-- Context passed to `cursor.All` (the decode stage) in
`updateCacheAsync` (src/server.go:130): `context.Background()`. -/
def tickDecodeCtx : GoContext := .background

/-- Releasable per-tick resources of `updateCacheAsync`: the
`cancel` function of the per-tick timeout context, and the cursor. -/
inductive TickRes where
  | cancelTimeout
  | cursorClose
  deriving DecidableEq, Repr

/-- Primitive operations of one `updateCacheAsync` loop iteration, in
program order. `deferPush r` records `defer`-ing the release of `r`
(Go runs deferred calls only when the surrounding function returns);
`release r` is an actual release; `continueLoop` ends the iteration. -/
inductive TickOp where
  | lock
  | unlock
  | deferPush (r : TickRes)
  | release (r : TickRes)
  | find
  | decodeAll
  | assignCache
  | continueLoop
  deriving DecidableEq, Repr

/-- Operation trace of one iteration of the `updateCacheAsync` loop body
(src/server.go:116-140), by fetch outcome. `cancel` and `cursor.Close`
are only `defer`-ed; since the `for` loop never returns from
`updateCacheAsync`, no deferred release runs before `continue`. The
mutex is unlocked explicitly on each path. -/
def tickOps (fetch : FetchOutcome) : List TickOp :=
  [.lock, .deferPush .cancelTimeout, .find] ++
  match fetch with
  | .findError => [.unlock, .continueLoop]
  | .decodeError => [.deferPush .cursorClose, .decodeAll, .unlock, .continueLoop]
  | .success _ => [.deferPush .cursorClose, .decodeAll, .assignCache, .unlock, .continueLoop]

/-- Whether a resource is actually released at some point of the
iteration before it continues to the next tick. -/
def releasedInTick (ops : List TickOp) (r : TickRes) : Bool :=
  ops.any (· = .release r)

/-- Whether the mutex is unlocked at some point of the iteration before
it continues to the next tick. -/
def unlockedInTick (ops : List TickOp) : Bool :=
  ops.any (· = .unlock)

/-- Outcome of `initMongoDB` (src/server.go:41-73): environment load,
connect or ping failure, or success. -/
inductive InitResult where
  | ok
  | fail (msg : String)
  deriving DecidableEq, Repr

/-- What a run of `main` (src/server.go:144-166) leads to: the process
exit status and whether the HTTP listener / refresher were started. -/
structure MainOutcome where
  exitCode : ℕ
  startedServing : Bool
  startedRefresher : Bool
  deriving DecidableEq, Repr

/-- `main` (src/server.go:144-166): on an `initMongoDB` error it prints
the error and returns from `main`, so the Go runtime exits the process
with status 0 and neither the refresher goroutine nor the HTTP listener
is started; on success it starts both (and blocks in
`ListenAndServe`). -/
def mainGo (init : InitResult) : MainOutcome :=
  match init with
  | .fail _ => ⟨0, false, false⟩
  | .ok => ⟨0, true, true⟩

/-- One serialized critical section against the shared cache: an
incoming request (with the backend outcome its cold fill would see and
whether response encoding succeeds) or one periodic tick (with its
backend outcome). Every access to `cache.data` in the source happens
with `cacheMutex` held, so any concurrent execution is some
interleaving of these atomic sections. -/
inductive Event where
  | request (fetch : FetchOutcome) (encodeOk : Bool)
  | tickEv (fetch : FetchOutcome)
  deriving DecidableEq, Repr

/-- Effect of one critical section on the shared state; a request also
produces a response. -/
def stepEvent (st : ServerState) : Event → ServerState × Option ResponseWriter
  | .request fetch encodeOk =>
    let r := getMapDataHandler st fetch encodeOk
    (r.state, some r.w)
  | .tickEv fetch => (updateCacheTick st fetch, none)

/-- Run of a serialized schedule of critical sections: final state and
the list of responses produced, in order. -/
def runEvents (st : ServerState) : List Event → ServerState × List ResponseWriter
  | [] => (st, [])
  | e :: es =>
    let (st', w?) := stepEvent st e
    let (stF, ws) := runEvents st' es
    (stF, (w?.toList) ++ ws)

/-- Record sets delivered by the successful fetches of a schedule. -/
def successResults : List Event → List (List MapLocation)
  | [] => []
  | .request (.success recs) _ :: es => recs :: successResults es
  | .tickEv (.success recs) :: es => recs :: successResults es
  | _ :: es => successResults es

/-- The record used by the spec's round-trip property:
id "1", location "Town", x = 1.5 (= 3/2), y = 2.5 (= 5/2). -/
def sampleRecord : MapLocation :=
  ⟨"1", "Town", ⟨Rat.mk' 3 2, Rat.mk' 5 2⟩⟩

/-- The coordinates of `sampleRecord` are the literals 1.5 and 2.5. -/
theorem sampleRecord_coords : sampleRecord.XY.x = 1.5 ∧ sampleRecord.XY.y = 2.5 := by
  constructor <;>
    · show Rat.mk' _ _ = _
      rw [Rat.mk'_eq_divInt]
      norm_num [Rat.divInt_eq_div]

/-- A state whose cache holds one record (a populated snapshot A). -/
def populatedState : ServerState := ⟨[sampleRecord], [sampleRecord]⟩
/-- C1: atomicity of failed refreshes — if a fetch attempt fails at the
backend-call (`Find`) stage or at the decode (`cursor.All`) stage, both
the on-demand handler and the periodic tick leave the entire package
state (in particular the cache snapshot) exactly as it was, so every
subsequent read observes the same snapshot A. -/
theorem failedFetchPreservesSnapshot (st : ServerState) (f : FetchOutcome) (e : Bool)
    (hf : f.isFailure = true) :
    (getMapDataHandler st f e).state = st ∧ updateCacheTick st f = st := by
  cases f with
  | findError =>
    refine ⟨?_, rfl⟩
    by_cases h : st.cacheData.length = 0 <;> cases e <;>
      simp [getMapDataHandler, h]
  | decodeError =>
    refine ⟨?_, rfl⟩
    by_cases h : st.cacheData.length = 0 <;> cases e <;>
      simp [getMapDataHandler, h]
  | success recs => simp [FetchOutcome.isFailure] at hf

/-- C1 witness: the populated one-record state with a `Find` failure. -/
theorem failedFetchPreservesSnapshotWitness :
    (getMapDataHandler populatedState .findError true).state = populatedState ∧
      updateCacheTick populatedState .findError = populatedState :=
  failedFetchPreservesSnapshot populatedState .findError true (by decide)
/-- C2 counterexample: from the populated one-record state, a successful
periodic fetch returning the empty record set moves the snapshot from
POPULATED back to EMPTY (the cache slice becomes length zero), refuting
the claim that no successful fetch leaves POPULATED. -/
theorem successfulEmptyFetchDepopulates :
    populatedState.cacheData ≠ [] ∧
      (updateCacheTick populatedState (.success [])).cacheData = [] := by
  constructor
  · decide
  · rfl

/-- C2 amended: a fetch failure never changes the state (on either
path), and a successful fetch returning a NONEMPTY record set takes
EMPTY to POPULATED and keeps POPULATED populated, on both the tick and
the handler path; (per the counterexample, a successful fetch returning
zero records instead empties the snapshot). -/
theorem snapshotTransitions (st : ServerState) (f : FetchOutcome) (e : Bool)
    (recs : List MapLocation) :
    (f.isFailure = true → (getMapDataHandler st f e).state = st ∧ updateCacheTick st f = st) ∧
    (recs ≠ [] → (updateCacheTick st (.success recs)).cacheData ≠ [] ∧
      (getMapDataHandler st (.success recs) e).state.cacheData ≠ []) := by
  constructor
  · intro hf
    cases f with
    | findError =>
      refine ⟨?_, rfl⟩
      by_cases h : st.cacheData.length = 0 <;> cases e <;> simp [getMapDataHandler, h]
    | decodeError =>
      refine ⟨?_, rfl⟩
      by_cases h : st.cacheData.length = 0 <;> cases e <;> simp [getMapDataHandler, h]
    | success recs => simp [FetchOutcome.isFailure] at hf
  · intro hr
    refine ⟨by simpa [updateCacheTick] using hr, ?_⟩
    by_cases h : st.cacheData.length = 0 <;> cases e <;>
      simp [getMapDataHandler, h, hr]
    all_goals
      intro hc
      exact h (by simp [hc])

/-- C2 amended witness: concrete instances at the populated one-record
state — a failed fetch changes nothing, and a nonempty successful fetch
keeps the snapshot populated. -/
theorem snapshotTransitionsWitness :
    (updateCacheTick populatedState .decodeError = populatedState) ∧
      (updateCacheTick populatedState (.success [sampleRecord])).cacheData ≠ [] :=
  ⟨((snapshotTransitions populatedState .decodeError true [sampleRecord]).1 (by decide)).2,
   ((snapshotTransitions populatedState .decodeError true [sampleRecord]).2 (by decide)).1⟩

/-- C3 counterexample: it is not the case that all four backend-call
stages run under a fresh 10-unit timeout — the decode stage of the
on-demand path (`cursor.All` at src/server.go:93) receives
`context.Background()`, which carries no timeout. -/
theorem decodeStageLacksTimeout :
    ¬ (handlerFindCtx.timeoutBound = some 10 ∧ handlerDecodeCtx.timeoutBound = some 10 ∧
       tickFindCtx.timeoutBound = some 10 ∧ tickDecodeCtx.timeoutBound = some 10) := by
  decide

/-- C3 amended: in both the on-demand and the periodic path, the
backend `Find` call runs under a fresh timeout of 10 time units scoped
to that call, while the decode (`cursor.All`) stage runs under
`context.Background()` and hence under no timeout at all. -/
theorem timeoutScopes :
    handlerFindCtx.timeoutBound = some 10 ∧ tickFindCtx.timeoutBound = some 10 ∧
    handlerDecodeCtx = GoContext.background ∧ tickDecodeCtx = GoContext.background ∧
    handlerDecodeCtx.timeoutBound = none ∧ tickDecodeCtx.timeoutBound = none := by
  decide
/-- The encode stage of `getMapDataHandler` runs exactly when the cache
is already populated or the cold fill succeeded (on a cold-fill failure
the handler returns before reaching the encoder). -/
def encodeStageReached (st : ServerState) (f : FetchOutcome) : Bool :=
  decide (st.cacheData.length ≠ 0) || !f.isFailure

/-- C4: whenever the encode stage runs and JSON encoding fails, the
handler answers status 500 with the plain-text message produced by
`http.Error`, and the resulting package state is exactly the state the
same run with a succeeding encoder would produce — the encode failure
does not affect the cache. -/
theorem encodeFailureYields500 (st : ServerState) (f : FetchOutcome)
    (h : encodeStageReached st f = true) :
    (getMapDataHandler st f false).w.status = some 500 ∧
    (getMapDataHandler st f false).w.contentType = "text/plain; charset=utf-8" ∧
    (getMapDataHandler st f false).w.body = "Failed to encode map data as JSON\n" ∧
    (getMapDataHandler st f false).state = (getMapDataHandler st f true).state := by
  by_cases hc : st.cacheData.length = 0
  · cases f with
    | findError => simp [encodeStageReached, hc, FetchOutcome.isFailure] at h
    | decodeError => simp [encodeStageReached, hc, FetchOutcome.isFailure] at h
    | success recs =>
      refine ⟨?_, ?_, ?_, ?_⟩ <;>
        simp [getMapDataHandler, hc, httpError, ResponseWriter.empty,
          ResponseWriter.setContentType, ResponseWriter.writeHeader, ResponseWriter.write]
  · refine ⟨?_, ?_, ?_, ?_⟩ <;>
      simp [getMapDataHandler, hc, httpError, ResponseWriter.empty,
        ResponseWriter.setContentType, ResponseWriter.writeHeader, ResponseWriter.write]

/-- C4 witness: encode failure on a read of the populated one-record
state. -/
theorem encodeFailureYields500Witness :
    (getMapDataHandler populatedState .findError false).w.status = some 500 ∧
    (getMapDataHandler populatedState .findError false).w.body =
      "Failed to encode map data as JSON\n" :=
  ⟨(encodeFailureYields500 populatedState .findError (by decide)).1,
   (encodeFailureYields500 populatedState .findError (by decide)).2.2.1⟩

/-- C5 counterexample: when `initMongoDB` fails, `main` prints the error
and returns, so the process exits with status 0 — not the non-zero
status the claim requires (serving indeed never starts). -/
theorem startupFailureExitCodeZero :
    (mainGo (.fail "connection refused")).exitCode = 0 ∧
      (mainGo (.fail "connection refused")).startedServing = false := by
  decide

/-- C5 amended: when initialization fails, the process neither starts
the HTTP listener nor the background refresher and terminates by
returning from `main`; its exit status is 0 (the fail-fast alternative),
not a non-zero status. -/
theorem startupFailureDoesNotServe (msg : String) :
    (mainGo (.fail msg)).startedServing = false ∧
    (mainGo (.fail msg)).startedRefresher = false ∧
    (mainGo (.fail msg)).exitCode = 0 := by
  simp [mainGo]

/-- C6: in every iteration of the refresh loop the mutex is unlocked on
each path before the loop continues, but the per-tick
timeout-cancellation resource is never released before the next tick —
`cancel` is only registered with `defer`, and `updateCacheAsync` never
returns, so the release is deferred to process exit, contradicting the
required per-tick release. -/
theorem tickCancelDeferredNotReleased (f : FetchOutcome) :
    unlockedInTick (tickOps f) = true ∧
    releasedInTick (tickOps f) TickRes.cancelTimeout = false ∧
    TickOp.deferPush TickRes.cancelTimeout ∈ tickOps f := by
  cases f <;> simp [tickOps, unlockedInTick, releasedInTick, List.any]

/-- C7: round trip — the record with id "1", location "Town",
x = 1.5, y = 2.5 is serialized exactly as
{"id":"1","location":"Town","xy":{"x":1.5,"y":2.5}}, with all fields
and the x/y pair in that order, and a cold-start request serving
exactly this record answers 200 with that object as the sole element
of the JSON array body. -/
theorem roundTripSampleRecord :
    encodeMapLocation sampleRecord =
      "\x7b\"id\":\"1\",\"location\":\"Town\",\"xy\":\x7b\"x\":1.5,\"y\":2.5\x7d\x7d" ∧
    (getMapDataHandler initialState (.success [sampleRecord]) true).w.status = some 200 ∧
    (getMapDataHandler initialState (.success [sampleRecord]) true).w.body =
      "[\x7b\"id\":\"1\",\"location\":\"Town\",\"xy\":\x7b\"x\":1.5,\"y\":2.5\x7d\x7d]\n" := by
  refine ⟨by decide, by decide, by decide⟩

/-- C8: idempotent read — on a populated cache with no intervening
writer, a `HandleRequest` run leaves the state untouched, and a second
run (whatever backend outcomes both runs would have seen) produces a
byte-identical response body. -/
theorem idempotentRead (st : ServerState) (f1 f2 : FetchOutcome)
    (h : st.cacheData ≠ []) :
    (getMapDataHandler st f1 true).state = st ∧
    (getMapDataHandler (getMapDataHandler st f1 true).state f2 true).w.body =
      (getMapDataHandler st f1 true).w.body := by
  have hc : ¬ st.cacheData.length = 0 := by simpa using h
  have hst : (getMapDataHandler st f1 true).state = st := by
    simp [getMapDataHandler, hc]
  refine ⟨hst, ?_⟩
  rw [hst]
  simp [getMapDataHandler, hc]

/-- C8 witness: two reads of the populated one-record state. -/
theorem idempotentReadWitness :
    (getMapDataHandler populatedState .findError true).state = populatedState ∧
    (getMapDataHandler (getMapDataHandler populatedState .findError true).state
        .decodeError true).w.body =
      (getMapDataHandler populatedState .findError true).w.body :=
  idempotentRead populatedState .findError .decodeError (by decide)

/-- C10: populated-ness is decided solely by the length of the cached
slice — a handler run fetches the backend exactly when the slice has
length zero, and a successful fetch returning the empty record set
leaves the cached slice as it was (so with an empty backend collection
every request performs a fresh synchronous backend fetch). -/
theorem emptyCacheTriggersFetch (st : ServerState) (f : FetchOutcome) (e : Bool) :
    ((getMapDataHandler st f e).fetched = true ↔ st.cacheData.length = 0) ∧
    (getMapDataHandler st (.success []) e).state.cacheData = st.cacheData := by
  by_cases hc : st.cacheData.length = 0
  · have hnil : st.cacheData = [] := by simpa using hc
    cases f <;> cases e <;> simp [getMapDataHandler, hc, hnil]
  · cases f <;> cases e <;> simp [getMapDataHandler, hc]
/-- Step characterization of one tick: the cache afterwards is either
unchanged or the record set of this tick's successful fetch. -/
theorem updateCacheTick_spec (st : ServerState) (f : FetchOutcome) :
    (updateCacheTick st f).cacheData = st.cacheData ∨
      ∃ recs, f = .success recs ∧ (updateCacheTick st f).cacheData = recs := by
  cases f with
  | findError => exact Or.inl rfl
  | decodeError => exact Or.inl rfl
  | success recs => exact Or.inr ⟨recs, rfl, rfl⟩

/-- Step characterization of one handler run: the cache afterwards is
either unchanged or the record set of this run's successful fetch, and
the response is either a 500 error or a 200 response whose body is the
JSON of the post-state cache followed by the encoder's newline. -/
theorem getMapDataHandler_run_spec (st : ServerState) (f : FetchOutcome) (e : Bool) :
    ((getMapDataHandler st f e).state.cacheData = st.cacheData ∨
      ∃ recs, f = .success recs ∧ (getMapDataHandler st f e).state.cacheData = recs) ∧
    ((getMapDataHandler st f e).w.status = some 500 ∨
      ((getMapDataHandler st f e).w.status = some 200 ∧
        (getMapDataHandler st f e).w.body =
          encodeMapLocations (getMapDataHandler st f e).state.cacheData ++ "\n")) := by
  by_cases hc : st.cacheData.length = 0
  · cases f with
    | findError =>
      refine ⟨Or.inl ?_, Or.inl ?_⟩ <;>
        simp [getMapDataHandler, hc, httpError, ResponseWriter.empty,
          ResponseWriter.setContentType, ResponseWriter.writeHeader, ResponseWriter.write]
    | decodeError =>
      refine ⟨Or.inl ?_, Or.inl ?_⟩ <;>
        simp [getMapDataHandler, hc, httpError, ResponseWriter.empty,
          ResponseWriter.setContentType, ResponseWriter.writeHeader, ResponseWriter.write]
    | success recs =>
      refine ⟨Or.inr ⟨recs, rfl, ?_⟩, ?_⟩
      · cases e <;> simp [getMapDataHandler, hc]
      · cases e
        · exact Or.inl (by
            simp [getMapDataHandler, hc, httpError, ResponseWriter.empty,
              ResponseWriter.setContentType, ResponseWriter.writeHeader, ResponseWriter.write])
        · exact Or.inr (by
            constructor <;>
              simp [getMapDataHandler, hc, ResponseWriter.empty,
                ResponseWriter.setContentType, ResponseWriter.write])
  · refine ⟨Or.inl ?_, ?_⟩
    · cases f <;> cases e <;> simp [getMapDataHandler, hc]
    · cases e
      · exact Or.inl (by
          cases f <;>
            simp [getMapDataHandler, hc, httpError, ResponseWriter.empty,
              ResponseWriter.setContentType, ResponseWriter.writeHeader, ResponseWriter.write])
      · exact Or.inr (by
          constructor <;> cases f <;>
            simp [getMapDataHandler, hc, ResponseWriter.empty,
              ResponseWriter.setContentType, ResponseWriter.write])

/-- Unfolding of a schedule run over a tick: a tick produces no
response, so the run continues from the tick's post-state. -/
theorem runEvents_cons_tick (st : ServerState) (f : FetchOutcome) (es : List Event) :
    runEvents st (Event.tickEv f :: es) = runEvents (updateCacheTick st f) es := rfl

/-- State component of a schedule run over a request. -/
theorem runEvents_cons_request_fst (st : ServerState) (f : FetchOutcome) (e : Bool)
    (es : List Event) :
    (runEvents st (Event.request f e :: es)).1 =
      (runEvents (getMapDataHandler st f e).state es).1 := rfl

/-- Response component of a schedule run over a request: the request's
own response followed by the rest of the run's responses. -/
theorem runEvents_cons_request_snd (st : ServerState) (f : FetchOutcome) (e : Bool)
    (es : List Event) :
    (runEvents st (Event.request f e :: es)).2 =
      (getMapDataHandler st f e).w :: (runEvents (getMapDataHandler st f e).state es).2 := rfl

/-- Success results of a longer schedule contain those of its tail. -/
theorem mem_successResults_cons (xs : List MapLocation) (ev : Event) (es : List Event)
    (h : xs ∈ successResults es) : xs ∈ successResults (ev :: es) := by
  cases ev with
  | request f e => cases f <;> simp [successResults, h]
  | tickEv f => cases f <;> simp [successResults, h]

/-- Invariant of any serialized schedule: the final cache is the
starting cache or one successful fetch's record set, and every response
is either a 500 error or a 200 response whose body is the JSON of the
starting cache or of one successful fetch's record set — never a
mixture. -/
theorem runEvents_inv (evs : List Event) : ∀ st : ServerState,
    ((runEvents st evs).1.cacheData = st.cacheData ∨
       (runEvents st evs).1.cacheData ∈ successResults evs) ∧
    ∀ w ∈ (runEvents st evs).2,
      w.status = some 500 ∨
        ∃ xs, (xs = st.cacheData ∨ xs ∈ successResults evs) ∧
          w.status = some 200 ∧ w.body = encodeMapLocations xs ++ "\n" := by
  induction evs with
  | nil =>
    intro st
    exact ⟨Or.inl rfl, by simp [runEvents]⟩
  | cons ev es ih =>
    intro st
    cases ev with
    | tickEv f =>
      rw [runEvents_cons_tick]
      have hstep := updateCacheTick_spec st f
      obtain ⟨ih1, ih2⟩ := ih (updateCacheTick st f)
      constructor
      · rcases ih1 with h1 | h1
        · rcases hstep with h2 | ⟨recs, hf, h2⟩
          · exact Or.inl (h1.trans h2)
          · subst hf
            right
            rw [h1, h2]
            simp [successResults]
        · exact Or.inr (mem_successResults_cons _ _ _ h1)
      · intro w hw
        rcases ih2 w hw with h | ⟨xs, hxs, hs, hb⟩
        · exact Or.inl h
        · refine Or.inr ⟨xs, ?_, hs, hb⟩
          rcases hxs with hxs | hxs
          · rcases hstep with h2 | ⟨recs, hf, h2⟩
            · exact Or.inl (hxs.trans h2)
            · subst hf
              right
              rw [hxs, h2]
              simp [successResults]
          · exact Or.inr (mem_successResults_cons _ _ _ hxs)
    | request f e =>
      obtain ⟨hspec1, hspec2⟩ := getMapDataHandler_run_spec st f e
      obtain ⟨ih1, ih2⟩ := ih (getMapDataHandler st f e).state
      constructor
      · rw [runEvents_cons_request_fst]
        rcases ih1 with h1 | h1
        · rcases hspec1 with h2 | ⟨recs, hf, h2⟩
          · exact Or.inl (h1.trans h2)
          · subst hf
            right
            rw [h1, h2]
            simp [successResults]
        · exact Or.inr (mem_successResults_cons _ _ _ h1)
      · intro w hw
        rw [runEvents_cons_request_snd] at hw
        rcases List.mem_cons.mp hw with hw0 | hwrest
        · subst hw0
          rcases hspec2 with h | ⟨hs, hb⟩
          · exact Or.inl h
          · refine Or.inr ⟨(getMapDataHandler st f e).state.cacheData, ?_, hs, hb⟩
            rcases hspec1 with h2 | ⟨recs, hf, h2⟩
            · exact Or.inl h2
            · subst hf
              right
              rw [h2]
              simp [successResults]
        · rcases ih2 w hwrest with h | ⟨xs, hxs, hs, hb⟩
          · exact Or.inl h
          · refine Or.inr ⟨xs, ?_, hs, hb⟩
            rcases hxs with hxs | hxs
            · rcases hspec1 with h2 | ⟨recs, hf, h2⟩
              · exact Or.inl (hxs.trans h2)
              · subst hf
                right
                rw [hxs, h2]
                simp [successResults]
            · exact Or.inr (mem_successResults_cons _ _ _ hxs)

/-- C9: concurrent safety — for any serialized schedule of request and
tick critical sections from process start (each section atomic because
every access to the shared cache in the source holds `cacheMutex`),
every response is either a 500 error or a 200 response whose body is
the complete JSON encoding of a single fetch's record set (or of the
initial empty snapshot) — never a mixture of two fetches. -/
theorem noTornResponses (evs : List Event) (w : ResponseWriter)
    (hw : w ∈ (runEvents initialState evs).2) :
    w.status = some 500 ∨
      ∃ xs, (xs = [] ∨ xs ∈ successResults evs) ∧
        w.status = some 200 ∧ w.body = encodeMapLocations xs ++ "\n" := by
  have h := (runEvents_inv evs initialState).2 w hw
  simpa [initialState] using h

/-- The response a cold-start request serving `sampleRecord` writes. -/
def sampleResponse : ResponseWriter :=
  ⟨"application/json", some 200,
    "[\x7b\"id\":\"1\",\"location\":\"Town\",\"xy\":\x7b\"x\":1.5,\"y\":2.5\x7d\x7d]\n"⟩

/-- C9 witness: in the one-request schedule that cold-fills with
`sampleRecord`, the produced response is a whole-snapshot response. -/
theorem noTornResponsesWitness :
    sampleResponse.status = some 500 ∨
      ∃ xs, (xs = [] ∨
          xs ∈ successResults [Event.request (.success [sampleRecord]) true]) ∧
        sampleResponse.status = some 200 ∧
        sampleResponse.body = encodeMapLocations xs ++ "\n" :=
  noTornResponses [Event.request (.success [sampleRecord]) true] sampleResponse (by decide)
